import Mathlib

/-!
Verification of the crawler/OCR pipeline (`app/crawler.py`, `app/ocr.py`,
`app/scheduler.py`, `app/routes/urls.py`) against its specification.

The Python source is shallowly embedded: pure logic becomes Lean functions,
stateful code becomes explicit trace/state passing, exceptions become
`Except`-style outcomes, and the external world (HTTP, the vision service,
the object store, the browser) is supplied as scenario parameters so each
code path can be analysed.
-/

namespace CrawlerModel

/-! ## String helpers

Lean 4.14 strings are `structure String where data : List Char`, so we work
on `List Char` with structural recursion (core string functions defined by
well-founded recursion would not reduce in the kernel).
These helpers model the exact Python primitives the source uses:
`str.lower`, `str.endswith`, `in` (substring), `str.split()` (whitespace,
dropping empties), `str.split(',')` (keeping empties), `str.strip()`.
-/

/-- ASCII lower-casing of one character (model of `str.lower` on the
ASCII URLs/extensions the source compares). -/
def lowerChar (c : Char) : Char :=
  if 'A' ≤ c ∧ c ≤ 'Z' then Char.ofNat (c.toNat + 32) else c

/-- ASCII lower-casing of a character list. -/
def asciiLower (l : List Char) : List Char := l.map lowerChar

/-- Does `s` start with `pat`? -/
def leadsWith : List Char → List Char → Bool
  | _, [] => true
  | [], _ :: _ => false
  | a :: s, b :: t => a = b && leadsWith s t

/-- Does `s` end with `pat`? (model of Python `str.endswith`). -/
def endsWithCL (s pat : List Char) : Bool := leadsWith s.reverse pat.reverse

/-- Does `s` contain `pat` as a contiguous substring? (model of Python `in`). -/
def hasSub : List Char → List Char → Bool
  | [], pat => pat.isEmpty
  | s@(_ :: rest), pat => leadsWith s pat || hasSub rest pat

/-- Helper for `pySplitWs`: accumulates the current token (reversed). -/
def pySplitWsAux : List Char → List Char → List (List Char)
  | [], acc => if acc.isEmpty then [] else [acc.reverse]
  | c :: rest, acc =>
    if c.isWhitespace then
      if acc.isEmpty then pySplitWsAux rest []
      else acc.reverse :: pySplitWsAux rest []
    else pySplitWsAux rest (c :: acc)

/-- Model of Python `str.split()` with no separator: split on runs of
whitespace, dropping empty tokens. -/
def pySplitWs (s : List Char) : List (List Char) := pySplitWsAux s []

/-- Helper for `splitComma`. -/
def splitCommaAux : List Char → List Char → List (List Char)
  | [], acc => [acc.reverse]
  | c :: rest, acc =>
    if c = ',' then acc.reverse :: splitCommaAux rest []
    else splitCommaAux rest (c :: acc)

/-- Model of Python `str.split(',')`: split on every comma, keeping empty
pieces. -/
def splitComma (s : List Char) : List (List Char) := splitCommaAux s []

/-- Model of Python `str.strip()`: drop whitespace from both ends. -/
def pyStrip (s : List Char) : List Char :=
  ((s.dropWhile Char.isWhitespace).reverse.dropWhile Char.isWhitespace).reverse

/-- Helper for `parenGroups`: `none` = scanning for `(`, `some acc` =
inside a group with `acc` the reversed captured characters. -/
def parenGroupsAux : List Char → Option (List Char) → List (List Char)
  | [], _ => []
  | c :: rest, none =>
    if c = '(' then parenGroupsAux rest (some []) else parenGroupsAux rest none
  | c :: rest, some acc =>
    if c = ')' then acc.reverse :: parenGroupsAux rest none
    else parenGroupsAux rest (some (c :: acc))

/-- Model of `re.findall(r'\((.*?)\)', style)` from `Crawler.crawl_url`:
every non-greedy parenthesized group, scanned left to right. -/
def parenGroups (s : List Char) : List (List Char) := parenGroupsAux s none

/-! ## Asset classification (`Crawler.is_image` / `Crawler.is_pdf`) -/

/-- `Crawler.image_extensions` from `crawler.py`. -/
def image_extensions : List String :=
  [".jpg", ".jpeg", ".png", ".gif", ".bmp", ".tiff", ".webp", ".svg"]

/-- `Crawler.pdf_extensions` from `crawler.py`. -/
def pdf_extensions : List String := [".pdf"]

/-- `Crawler.is_image`: `any(url.lower().endswith(ext) for ext in image_extensions)`. -/
def is_image (url : String) : Bool :=
  image_extensions.any fun ext => endsWithCL (asciiLower url.data) ext.data

/-- `Crawler.is_pdf`: `any(url.lower().endswith(ext) for ext in pdf_extensions)`. -/
def is_pdf (url : String) : Bool :=
  pdf_extensions.any fun ext => endsWithCL (asciiLower url.data) ext.data

/-! ## Asset extraction (`Crawler.crawl_url`)

The parsed DOM is modelled exactly as the attribute views `crawl_url` reads
through BeautifulSoup: the `<img>` elements with their `src`, `data-src`
and `srcset` attributes, the elements carrying an inline `style`, the
`<source>` elements with their `srcset`, and the `<a>` elements that have
an `href`.  A missing attribute is `none`; Python truthiness (`if src:`)
treats `None` and the empty string as false.

The per-reference processing can raise (`candidate.strip().split()[0]`
raises `IndexError` on an empty candidate, as does `srcset.split()[0]` on a
whitespace-only `<source>` srcset).  Such an exception escapes every loop
in `crawl_url`; assets committed before it remain persisted.  Extraction
therefore returns the list of references recorded so far together with an
aborted flag. -/

/-- An `<img>` element as read by `crawl_url`. -/
structure Img where
  src : Option String
  dataSrc : Option String
  srcset : Option String
deriving DecidableEq

/-- An element with an inline `style` attribute (`find_all(style=True)`). -/
structure StyledEl where
  style : String
deriving DecidableEq

/-- A `<source>` element as read by `crawl_url`. -/
structure SourceEl where
  srcset : Option String
deriving DecidableEq

/-- An `<a>` element with an `href` (`find_all('a', href=True)`). -/
structure Anchor where
  href : String
deriving DecidableEq

/-- The parsed page as `crawl_url` traverses it, element lists in document
order. -/
structure Dom where
  imgs : List Img
  styled : List StyledEl
  sources : List SourceEl
  anchors : List Anchor
deriving DecidableEq

/-- Asset classification recorded in the `Asset.asset_type` column. -/
inductive AssetType where
  | image
  | pdf
deriving DecidableEq

/-- One discovered reference: absolute URL and type, in insertion order. -/
abbrev Ref := String × AssetType

/-- Result of a (possibly aborted) extraction pass: the references recorded
before the abort, and whether an exception escaped. -/
abbrev EOut := List Ref × Bool

/-- Sequencing of two extraction phases: if the first aborted, the second
never runs. -/
def seqE (a b : EOut) : EOut := if a.2 then a else (a.1 ++ b.1, b.2)

/-- Python truthiness of an optional attribute value (`if src:`):
`None` and `""` are falsy. -/
def truthy : Option String → Bool
  | none => false
  | some s => s != ""

/-- One `src`/`data-src` attribute of an `<img>`: if truthy, resolve
against the base URL via `join` and keep it when classified as an image. -/
def attrRef (join : String → String → String) (base : String)
    (v : Option String) : List Ref :=
  match v with
  | none => []
  | some s =>
    if s != "" then
      let full := join base s
      if is_image full then [(full, AssetType.image)] else []
    else []

/-- The `for attr in ('src', 'data-src')` loop of `crawl_url`: both
attributes are examined for every `<img>`. -/
def imgAttrRefs (join : String → String → String) (base : String)
    (img : Img) : List Ref :=
  attrRef join base img.src ++ attrRef join base img.dataSrc

/-- The `for candidate in img['srcset'].split(',')` loop:
`candidate.strip().split()[0]` raises `IndexError` when the candidate has
no whitespace-delimited token, aborting the whole extraction. -/
def srcsetScan (join : String → String → String) (base : String) :
    List (List Char) → EOut
  | [] => ([], false)
  | c :: rest =>
    match pySplitWs (pyStrip c) with
    | [] => ([], true)
    | t :: _ =>
      let full := join base ⟨t⟩
      let more := srcsetScan join base rest
      ((if is_image full then [(full, AssetType.image)] else []) ++ more.1, more.2)

/-- The `if img.get('srcset'):` branch of `crawl_url`. -/
def imgSrcsetRefs (join : String → String → String) (base : String)
    (img : Img) : EOut :=
  if truthy img.srcset then srcsetScan join base (splitComma (img.srcset.getD "").data)
  else ([], false)

/-- One `<img>`: `src`/`data-src` first, then the `srcset` candidates. -/
def imgRefs (join : String → String → String) (base : String)
    (img : Img) : EOut :=
  seqE (imgAttrRefs join base img, false) (imgSrcsetRefs join base img)

/-- The `for img in soup.find_all('img')` loop. -/
def imgsScan (join : String → String → String) (base : String) :
    List Img → EOut
  | [] => ([], false)
  | i :: rest => seqE (imgRefs join base i) (imgsScan join base rest)

/-- The background-image branch: when the style contains
`background-image`, every parenthesized group of the whole style is a
candidate URL. -/
def styleRefs (join : String → String → String) (base : String)
    (el : StyledEl) : List Ref :=
  if hasSub el.style.data "background-image".data then
    (parenGroups el.style.data).filterMap fun m =>
      let full := join base ⟨m⟩
      if is_image full then some (full, AssetType.image) else none
  else []

/-- The `for el in soup.find_all(style=True)` loop (cannot raise). -/
def stylesRefs (join : String → String → String) (base : String)
    (styled : List StyledEl) : List Ref :=
  (styled.map (styleRefs join base)).flatten

/-- The `for src in soup.find_all('source')` loop:
`src['srcset'].split()[0]` raises `IndexError` on a truthy but
whitespace-only srcset. -/
def sourcesScan (join : String → String → String) (base : String) :
    List SourceEl → EOut
  | [] => ([], false)
  | s :: rest =>
    if truthy s.srcset then
      match pySplitWs (s.srcset.getD "").data with
      | [] => ([], true)
      | t :: _ =>
        let full := join base ⟨t⟩
        let more := sourcesScan join base rest
        ((if is_image full then [(full, AssetType.image)] else []) ++ more.1, more.2)
    else sourcesScan join base rest

/-- The `for a in soup.find_all('a', href=True)` loop: note the source
classifies the RAW `href` with `is_pdf`, and only then resolves it. -/
def anchorRefs (join : String → String → String) (base : String)
    (anchors : List Anchor) : List Ref :=
  anchors.filterMap fun a =>
    if is_pdf a.href then some (join base a.href, AssetType.pdf) else none

/-- The complete asset-discovery pass of `Crawler.crawl_url`, in source
order: `<img>` elements (per element: `src`, `data-src`, then `srcset`
candidates), then inline-style background images, then `<source>` srcsets,
then PDF anchors.  `join` abstracts `urllib.parse.urljoin`. -/
def extractAssets (join : String → String → String) (base : String)
    (dom : Dom) : EOut :=
  seqE (imgsScan join base dom.imgs)
    (seqE (stylesRefs join base dom.styled, false)
      (seqE (sourcesScan join base dom.sources)
        (anchorRefs join base dom.anchors, false)))

/-! ## Page crawl and run loop (`Crawler.crawl_url`, `crawl_pending_urls`) -/

/-- Observable outcome of `Crawler.crawl_url` on one page: the final
`URL.status` and the Asset rows persisted (each `save_asset` commits
immediately, so rows recorded before an abort remain). -/
structure CrawlOut where
  urlStatus : String
  savedAssets : List Ref
deriving DecidableEq

/-- `Crawler.crawl_url`: `fetch_dom` returning no HTML (modelled `none`)
marks the page failed with no assets; an exception escaping extraction is
caught by the outer handler which marks the page failed, keeping the
already-committed assets; otherwise the page completes. -/
def crawl_url (join : String → String → String) (base : String)
    (html : Option Dom) : CrawlOut :=
  match html with
  | none => ⟨"failed", []⟩
  | some dom =>
    let e := extractAssets join base dom
    ⟨if e.2 then "failed" else "completed", e.1⟩

/-- The per-run loop shared by the scheduler job `crawl_pending_urls` and
the manual trigger's `crawl_background`: each page is crawled inside its
own try/except, so one page's outcome never stops the loop. -/
def crawl_pending_urls (join : String → String → String) :
    List (String × Option Dom) → List CrawlOut
  | [] => []
  | p :: rest => crawl_url join p.1 p.2 :: crawl_pending_urls join rest

/-! ## Claim-side extraction orders (for C2)

`specExtractGrouped` follows the words of claim C2: first ALL `<img>`
`src`/`data-src` references, then ALL `<img>` srcset candidates, then the
background images, then the `<source>` srcsets, then the PDF anchors.
`specExtractInterleaved` follows the amended claim: per-`<img>`
interleaving, matching the code's loop structure. -/

/-- Srcset candidates of one `<img>` as an error-free list (the claim is
silent on malformed candidates; they yield nothing here). -/
def specImgSrcset (join : String → String → String) (base : String)
    (img : Img) : List Ref :=
  if truthy img.srcset then
    (splitComma (img.srcset.getD "").data).filterMap fun c =>
      match pySplitWs (pyStrip c) with
      | [] => none
      | t :: _ =>
        let full := join base ⟨t⟩
        if is_image full then some (full, AssetType.image) else none
  else []

/-- First-token reference of one `<source>` as an error-free list. -/
def specSourceRef (join : String → String → String) (base : String)
    (s : SourceEl) : List Ref :=
  if truthy s.srcset then
    match pySplitWs (s.srcset.getD "").data with
    | [] => []
    | t :: _ =>
      let full := join base ⟨t⟩
      if is_image full then [(full, AssetType.image)] else []
  else []

/-- Modelled from the words of claim C2: globally grouped source order
(all `src`/`data-src`, then all srcset candidates, then backgrounds, then
`<source>`, then anchors). -/
def specExtractGrouped (join : String → String → String) (base : String)
    (dom : Dom) : List Ref :=
  (dom.imgs.map (imgAttrRefs join base)).flatten
    ++ (dom.imgs.map (specImgSrcset join base)).flatten
    ++ stylesRefs join base dom.styled
    ++ (dom.sources.map (specSourceRef join base)).flatten
    ++ anchorRefs join base dom.anchors

/-- Modelled from the amended claim: per-`<img>` interleaved order. -/
def specExtractInterleaved (join : String → String → String) (base : String)
    (dom : Dom) : List Ref :=
  (dom.imgs.map fun i => imgAttrRefs join base i ++ specImgSrcset join base i).flatten
    ++ stylesRefs join base dom.styled
    ++ (dom.sources.map (specSourceRef join base)).flatten
    ++ anchorRefs join base dom.anchors

/-! ## Renderer (`Crawler.fetch_dom`)

One loop iteration per attempt (`for attempt in range(self.max_retries)`),
each attempt setting the page-load and script timeouts from the fixed
instance attributes, then navigating.  The outcome of one attempt is
abstracted: success with HTML, a `TimeoutException`, a
`WebDriverException`, or any other exception.  All three failure branches
behave identically in the source: log, return `None` on the last attempt,
otherwise sleep `2 ** attempt` seconds and continue. -/

/-- `Crawler.page_load_timeout` (seconds, set in `__init__`). -/
def page_load_timeout : Nat := 30

/-- `Crawler.script_timeout` (seconds, set in `__init__`). -/
def script_timeout : Nat := 30

/-- `Crawler.max_retries` (set in `__init__`). -/
def max_retries : Nat := 3

/-- Outcome of one Selenium attempt inside `fetch_dom`. -/
inductive AttemptOutcome where
  | success (html : String)
  | timeout
  | webdriverErr
  | otherErr
deriving DecidableEq

/-- Did the attempt produce HTML? -/
def AttemptOutcome.isSuccess : AttemptOutcome → Bool
  | .success _ => true
  | _ => false

/-- Observable trace of one `fetch_dom` call: number of driver attempts
made, the backoff sleeps performed (seconds, in order), the page-load and
script timeouts configured on each attempt (in order), and the returned
HTML (`none` models returning `None`). -/
structure FetchTrace where
  attemptsMade : Nat
  sleeps : List Nat
  pageLoadTimeouts : List Nat
  scriptTimeouts : List Nat
  result : Option String
deriving DecidableEq

/-- The attempt loop of `fetch_dom`; `fuel` is the number of attempts left
(`max_retries - attempt`), `attempt` the 0-based index as in the source. -/
def fetchGo (outcome : Nat → AttemptOutcome) : Nat → Nat → FetchTrace
  | 0, _ => ⟨0, [], [], [], none⟩
  | fuel + 1, attempt =>
    match outcome attempt with
    | .success h => ⟨1, [], [page_load_timeout], [script_timeout], some h⟩
    | _ =>
      if fuel = 0 then
        ⟨1, [], [page_load_timeout], [script_timeout], none⟩
      else
        let rest := fetchGo outcome fuel (attempt + 1)
        ⟨rest.attemptsMade + 1, 2 ^ attempt :: rest.sleeps,
          page_load_timeout :: rest.pageLoadTimeouts,
          script_timeout :: rest.scriptTimeouts, rest.result⟩

/-- `Crawler.fetch_dom`, parameterized by the outcome of each attempt. -/
def fetch_dom (outcome : Nat → AttemptOutcome) : FetchTrace :=
  fetchGo outcome max_retries 0

/-- Strict increase along a list (used to state the "strictly increasing
timeout budgets" part of the render-retry claims). -/
def strictIncr : List Nat → Bool
  | a :: b :: r => decide (a < b) && strictIncr (b :: r)
  | _ => true

/-! ## OCR pipeline (`OCRProcessor.process_image` / `process_pdf`)

Each entry point first calls `set_asset_status(asset_id, 'processing')`,
then runs its body inside `try/except Exception`, whose handler sets the
status to `'failed'`, rolls back, and returns `None`.  The external world
is a scenario record: the HTTP download, the vision call, the object-store
operations — each either returns a value or raises (`Except`).
The database itself is modelled as reliable (a `set_asset_status` /
`commit` call performs its write); confidences are modelled as rationals.

The body is translated separately from the handler so that "an exception
escaping the body" is an explicit case (`.error`). -/

/-- Python exceptions distinguished by the source (`GoogleAPIError` is the
retry predicate's class; the explicit `raise Exception('Vision API
error...')`; everything else collapsed). -/
inductive PyErr where
  | googleAPIError
  | visionErrorMessage (msg : String)
  | requestError
  | storageError
  | otherError
deriving DecidableEq

/-- The fields of `response.full_text_annotation` / `response.error` that
`process_image` reads from `document_text_detection`. -/
structure VisionResp where
  errorMessage : String
  text : String
  pages : List ℚ
deriving DecidableEq

/-- One persisted `OCRResult` row (`content`, `confidence`). -/
structure OCRRow where
  content : String
  confidence : ℚ
deriving DecidableEq

/-- External world of one `process_image` call: the `requests.get`
outcome (status code and body, or an exception) and the
`document_text_detection` outcome. -/
structure ImageScenario where
  download : Except PyErr (Nat × String)
  vision : Except PyErr VisionResp

/-- Parse outcome of one output blob in `process_pdf`: valid JSON with a
non-empty `responses` list (first `fullTextAnnotation.text`, defaults
applied), valid JSON without responses, or a `JSONDecodeError`. -/
inductive ParsedOut where
  | okText (firstText : String)
  | noResponses
  | decodeError
deriving DecidableEq

/-- One output object under `ocr_results/{asset_id}/`: its raw decoded
content and how `json.loads` fares on it. -/
structure OutBlob where
  raw : String
  parsed : ParsedOut
deriving DecidableEq

/-- The text `process_pdf` appends to `results` for one output blob:
the extracted annotation text, or the raw content when the JSON has no
responses or fails to parse. -/
def blobText (b : OutBlob) : String :=
  match b.parsed with
  | .okText t => t
  | .noResponses => b.raw
  | .decodeError => b.raw

/-- External world of one `process_pdf` call: download, the staging
upload, the async batch operation (submit + `result(timeout=180)`), the
listing/reading of output blobs, and the cleanup deletes. -/
structure PdfScenario where
  download : Except PyErr (Nat × String)
  upload : Except PyErr Unit
  operation : Except PyErr Unit
  outputs : Except PyErr (List OutBlob)
  cleanup : Except PyErr Unit

/-- Effects of the `try` body before the handler runs: status updates made
inside the body (after the entry `'processing'`), whether the recognition
service was invoked, the `OCRResult` rows committed, and the body outcome:
`.ok none` = early `return None`, `.ok (some r)` = success returning `r`,
`.error e` = exception `e` escaping to the handler. -/
structure BodyResult where
  bodyStatuses : List String
  visionCalled : Bool
  persisted : List OCRRow
  outcome : Except PyErr (Option OCRRow)

/-- Observable trace of one entry-point call: every status written to the
asset in order (the entry `'processing'` first), the `OCRResult` rows
committed, whether the recognition service was invoked, and the returned
value (`none` models returning `None`). -/
structure OcrTrace where
  statusHistory : List String
  persisted : List OCRRow
  visionCalled : Bool
  result : Option OCRRow
deriving DecidableEq

/-- Last element of a status-write sequence. -/
def lastWritten : List String → Option String
  | [] => none
  | s :: rest => some ((lastWritten rest).getD s)

/-- Last status written by a call. -/
def lastStatus (t : OcrTrace) : Option String := lastWritten t.statusHistory

/-- The `try` body of `process_image`: download (raising propagates), a
non-200 status sets `'failed'` and returns `None`, then
`document_text_detection` (raising propagates), then the
`response.error.message` check (raising the wrapped exception), then the
`OCRResult` is built from `document.text` and
`document.pages[0].confidence if document.pages else 0.0`, committed, and
the status set to `'processed'`. -/
def process_image_try (sc : ImageScenario) : BodyResult :=
  match sc.download with
  | .error e => ⟨[], false, [], .error e⟩
  | .ok (code, _content) =>
    if code ≠ 200 then ⟨["failed"], false, [], .ok none⟩
    else
      match sc.vision with
      | .error e => ⟨[], true, [], .error e⟩
      | .ok resp =>
        if resp.errorMessage ≠ "" then
          ⟨[], true, [], .error (.visionErrorMessage resp.errorMessage)⟩
        else
          let row : OCRRow := ⟨resp.text, resp.pages.headD 0⟩
          ⟨["processed"], true, [row], .ok (some row)⟩

/-- `OCRProcessor.process_image` (undecorated function body): entry status
`'processing'`, then the body; the `except Exception` handler sets
`'failed'` and returns `None`. -/
def process_image (sc : ImageScenario) : OcrTrace :=
  let b := process_image_try sc
  match b.outcome with
  | .ok r => ⟨"processing" :: b.bodyStatuses, b.persisted, b.visionCalled, r⟩
  | .error _ =>
    ⟨"processing" :: (b.bodyStatuses ++ ["failed"]), b.persisted, b.visionCalled, none⟩

/-- The `try` body of `process_pdf`: download → non-200 short-circuit →
staging upload → async batch annotate + wait → read and parse every output
blob → commit the concatenated `OCRResult` (confidence fixed at 1) and set
`'processed'` → cleanup deletes (any raise here reaches the handler AFTER
the row is committed). -/
def process_pdf_try (sc : PdfScenario) : BodyResult :=
  match sc.download with
  | .error e => ⟨[], false, [], .error e⟩
  | .ok (code, _content) =>
    if code ≠ 200 then ⟨["failed"], false, [], .ok none⟩
    else
      match sc.upload with
      | .error e => ⟨[], false, [], .error e⟩
      | .ok _ =>
        match sc.operation with
        | .error e => ⟨[], true, [], .error e⟩
        | .ok _ =>
          match sc.outputs with
          | .error e => ⟨[], true, [], .error e⟩
          | .ok blobs =>
            let row : OCRRow :=
              ⟨String.intercalate "\n" (blobs.map blobText), 1⟩
            match sc.cleanup with
            | .error e => ⟨["processed"], true, [row], .error e⟩
            | .ok _ => ⟨["processed"], true, [row], .ok (some row)⟩

/-- `OCRProcessor.process_pdf` (undecorated function body). -/
def process_pdf (sc : PdfScenario) : OcrTrace :=
  let b := process_pdf_try sc
  match b.outcome with
  | .ok r => ⟨"processing" :: b.bodyStatuses, b.persisted, b.visionCalled, r⟩
  | .error _ =>
    ⟨"processing" :: (b.bodyStatuses ++ ["failed"]), b.persisted, b.visionCalled, none⟩

/-! ## The `retry.Retry` decorator on both entry points

`google.api_core.retry.Retry(predicate=if_exception_type(GoogleAPIError),
initial=1.0, maximum=60.0, multiplier=2.0, deadline=300.0)` re-invokes the
wrapped callable while it RAISES an exception matching the predicate,
sleeping an exponentially growing wait (1s doubling, capped at 60s) until
the 300s deadline; there is no attempt-count cap.  A call that returns
normally — with any value, including `None` — is never retried. -/

/-- `if_exception_type(GoogleAPIError)`. -/
def retryPredicate : PyErr → Bool
  | .googleAPIError => true
  | _ => false

/-- Wait before the (n+2)-th attempt: `min(initial * multiplier^n, maximum)`
with initial 1s, multiplier 2, maximum 60s. -/
def retryWait (n : Nat) : ℚ := min ((2 : ℚ) ^ n) 60

/-- Number of attempts the 300s deadline can admit: the waits
1,2,4,8,16,32,60,60,60,60 accumulate past 300s within 10 retries, so 10
bounds the loop. -/
def retryDeadlineFuel : Nat := 10

/-- The retry loop: each attempt either returns normally (done), raises a
non-matching exception (re-raised), or raises a matching exception
(retried until the deadline fuel runs out).  Returns the number of
attempts made and the final outcome. -/
def retryRunGo {α : Type} (pred : PyErr → Bool)
    (call : Nat → Except PyErr α) : Nat → Nat → Nat × Except PyErr α
  | 0, i => (i + 1, call i)
  | fuel + 1, i =>
    match call i with
    | .ok a => (i + 1, .ok a)
    | .error e =>
      if pred e then retryRunGo pred call fuel (i + 1)
      else (i + 1, .error e)

/-- One decorated invocation. -/
def retryRun {α : Type} (pred : PyErr → Bool)
    (call : Nat → Except PyErr α) : Nat × Except PyErr α :=
  retryRunGo pred call retryDeadlineFuel 0

/-- The decorated `process_image` as actually invoked through
`@retry.Retry(...)`: since the translated `process_image` is a total
function (its `except Exception` handler returns `None` on every internal
exception), every attempt returns normally (`.ok`). -/
def process_image_decorated (sc : ImageScenario) : Nat × Except PyErr OcrTrace :=
  retryRun retryPredicate fun _ => .ok (process_image sc)

/-- The decorated `process_pdf`, same decorator and same reasoning. -/
def process_pdf_decorated (sc : PdfScenario) : Nat × Except PyErr OcrTrace :=
  retryRun retryPredicate fun _ => .ok (process_pdf sc)

/-! ## Scheduler / run overlap (`init_scheduler`, `CrawlPendingURLs.post`)

Both the hourly job `crawl_pending_urls` and the manual endpoint's
`crawl_background` thread run
`URL.query.filter_by(status='pending').all()` and then crawl each selected
page; `crawl_url` writes the page status only at the END of processing and
nothing flips a page out of `'pending'` at selection time.  APScheduler's
`max_instances=1` only serializes the scheduled job against itself — the
manual thread is started unconditionally.  We model the page table, the
selection query, and the status write of one crawl, and compose two runs
either overlapped (both select before either processes) or sequentially. -/

/-- One row of the `url` table as the run loops see it. -/
structure PageRec where
  id : Nat
  status : String
deriving DecidableEq

/-- `URL.query.filter_by(status='pending').all()`, keeping ids. -/
def selectPending (db : List PageRec) : List Nat :=
  (db.filter fun p => p.status == "pending").map PageRec.id

/-- Terminal state `crawl_url` leaves on page `p` (`outcome` tells whether
the crawl of that id succeeds). -/
def doneStatus (outcome : Nat → Bool) (p : PageRec) : PageRec :=
  { p with status := if outcome p.id then "completed" else "failed" }

/-- Status write of one `crawl_url` call on page id `i`. -/
def crawlMark (outcome : Nat → Bool) (db : List PageRec) (i : Nat) :
    List PageRec :=
  db.map fun p => if p.id == i then doneStatus outcome p else p

/-- One run's processing loop over its selected worklist; returns the
final table and the log of page ids actually crawled by this run. -/
def runAll (outcome : Nat → Bool) : List PageRec → List Nat →
    List PageRec × List Nat
  | db, [] => (db, [])
  | db, i :: rest =>
    let r := runAll outcome (crawlMark outcome db i) rest
    (r.1, i :: r.2)

/-- Two runs in flight at once (e.g. the scheduled job and the manual
thread): both execute the selection query before either crawls.  Returns
the final table and the two crawl logs. -/
def overlappedRuns (outcome : Nat → Bool) (db : List PageRec) :
    List PageRec × List Nat × List Nat :=
  let idsA := selectPending db
  let idsB := selectPending db
  let ra := runAll outcome db idsA
  let rb := runAll outcome ra.1 idsB
  (rb.1, ra.2, rb.2)

/-- Two runs serialized: the second selects only after the first has fully
finished. -/
def sequentialRuns (outcome : Nat → Bool) (db : List PageRec) :
    List PageRec × List Nat × List Nat :=
  let idsA := selectPending db
  let ra := runAll outcome db idsA
  let idsB := selectPending ra.1
  let rb := runAll outcome ra.1 idsB
  (rb.1, ra.2, rb.2)

/-! ## Concrete inputs used by counterexamples and witnesses -/

/-- URL resolution for pages whose references are already absolute:
`urljoin(base, url)` returns `url` unchanged when `url` has a scheme. -/
def joinId : String → String → String := fun _ r => r

/-- Base URL of the example page. -/
def baseB : String := "https://x.test/p"

/-- Page with `<img srcset="https://x.test/a.jpg 1x">` followed by
`<img src="https://x.test/b.jpg">`: the first image's srcset candidate is
discovered BEFORE the second image's `src`. -/
def domC2 : Dom :=
  ⟨[⟨none, none, some "https://x.test/a.jpg 1x"⟩,
    ⟨some "https://x.test/b.jpg", none, none⟩], [], [], []⟩

/-- Page with `<img srcset=", https://x.test/a.jpg 1x">`: the leading
comma yields an empty first candidate, so
`candidate.strip().split()[0]` raises `IndexError`. -/
def domC9 : Dom := ⟨[⟨none, none, some ", https://x.test/a.jpg 1x"⟩], [], [], []⟩

/-- Image call whose download succeeds and whose
`document_text_detection` raises `GoogleAPIError` — the exact exception
class the retry decorator is configured to retry. -/
def scC3 : ImageScenario := ⟨.ok (200, "bytes"), .error .googleAPIError⟩

/-- Image call whose download returns HTTP 404. -/
def scC5i : ImageScenario := ⟨.ok (404, "not found"), .ok ⟨"", "t", []⟩⟩

/-- PDF call whose download returns HTTP 404. -/
def scC5p : PdfScenario :=
  ⟨.ok (404, "not found"), .ok (), .ok (), .ok [], .ok ()⟩

/-- PDF call where everything up to and including the `OCRResult` commit
succeeds, and then the cleanup delete of the staged blob raises. -/
def scC7 : PdfScenario :=
  ⟨.ok (200, "pdfbytes"), .ok (), .ok (), .ok [⟨"text", .okText "text"⟩],
    .error .storageError⟩

/-- A one-page table with a single pending page. -/
def dbOnePending : List PageRec := [⟨1, "pending"⟩]

/-! # Theorems -/

/-! ## Shared lemmas about extraction sequencing -/

/-- Aborted flag of a sequenced extraction: either phase aborted. -/
theorem seqE_snd (a b : EOut) : (seqE a b).2 = (a.2 || b.2) := by
  unfold seqE
  cases h : a.2 <;> simp [h]

/-- An unaborted sequence concatenates the two phases' references. -/
theorem seqE_fst_of_false (a b : EOut) (h : a.2 = false) :
    (seqE a b).1 = a.1 ++ b.1 := by
  unfold seqE
  simp [h]

/-- An unaborted srcset scan collects exactly the image-classified first
tokens of the candidates, in order. -/
theorem srcsetScan_of_false (join : String → String → String) (base : String) :
    ∀ l : List (List Char), (srcsetScan join base l).2 = false →
      (srcsetScan join base l).1 =
        l.filterMap fun c =>
          match pySplitWs (pyStrip c) with
          | [] => none
          | t :: _ =>
            let full := join base ⟨t⟩
            if is_image full then some (full, AssetType.image) else none := by
  intro l
  induction l with
  | nil => intro _; rfl
  | cons c rest ih =>
    intro h
    rw [srcsetScan] at h
    cases hc : pySplitWs (pyStrip c) with
    | nil =>
      rw [hc] at h
      simp at h
    | cons t ts =>
      rw [hc] at h
      have h2 : (srcsetScan join base rest).2 = false := h
      simp only [srcsetScan, hc, List.filterMap_cons]
      rw [ih h2]
      cases hi : is_image (join base ⟨t⟩) <;> simp [hi]

/-- An unaborted `<source>` scan collects exactly the per-element
first-token references, in order. -/
theorem sourcesScan_of_false (join : String → String → String) (base : String) :
    ∀ l : List SourceEl, (sourcesScan join base l).2 = false →
      (sourcesScan join base l).1 =
        (l.map (specSourceRef join base)).flatten := by
  intro l
  induction l with
  | nil => intro _; rfl
  | cons s rest ih =>
    intro h
    rw [sourcesScan] at h
    by_cases ht : truthy s.srcset = true
    · rw [if_pos ht] at h
      cases hc : pySplitWs (s.srcset.getD "").data with
      | nil =>
        rw [hc] at h
        simp at h
      | cons t ts =>
        rw [hc] at h
        have h2 : (sourcesScan join base rest).2 = false := h
        simp only [sourcesScan, ht, if_true, hc, List.map_cons, List.flatten_cons,
          specSourceRef]
        rw [ih h2]
    · rw [if_neg ht] at h
      simp only [sourcesScan, ht, if_false, List.map_cons, List.flatten_cons,
        specSourceRef]
      exact ih h

/-- An unaborted per-`<img>` pass yields the attribute references followed
by the srcset candidates. -/
theorem imgRefs_of_false (join : String → String → String) (base : String)
    (img : Img) (h : (imgRefs join base img).2 = false) :
    (imgRefs join base img).1 =
      imgAttrRefs join base img ++ specImgSrcset join base img := by
  have hsnd : (imgSrcsetRefs join base img).2 = false := by
    rw [imgRefs, seqE_snd] at h
    simpa using h
  rw [imgRefs, seqE_fst_of_false _ _ rfl]
  congr 1
  rw [imgSrcsetRefs] at hsnd
  rw [imgSrcsetRefs, specImgSrcset]
  by_cases ht : truthy img.srcset = true
  · rw [if_pos ht] at hsnd
    simp only [ht, if_true]
    exact srcsetScan_of_false join base _ hsnd
  · simp [ht]

/-- An unaborted `<img>` loop yields the per-image blocks, in document
order. -/
theorem imgsScan_of_false (join : String → String → String) (base : String) :
    ∀ l : List Img, (imgsScan join base l).2 = false →
      (imgsScan join base l).1 =
        (l.map fun i => imgAttrRefs join base i ++ specImgSrcset join base i).flatten := by
  intro l
  induction l with
  | nil => intro _; rfl
  | cons i rest ih =>
    intro h
    rw [imgsScan] at h ⊢
    rw [seqE_snd] at h
    obtain ⟨h1, h2⟩ : (imgRefs join base i).2 = false ∧
        (imgsScan join base rest).2 = false := by simpa using h
    rw [seqE_fst_of_false _ _ h1, imgRefs_of_false join base i h1, ih h2]
    simp

/-! ## C2: extraction order -/

/-- C2, counterexample.  The claim asserts a globally grouped order: first
ALL `<img>` `src`/`data-src` references, THEN all `<img>` srcset
candidates.  On the page `<img srcset="https://x.test/a.jpg 1x">
<img src="https://x.test/b.jpg">` the code records the first image's
srcset candidate `a.jpg` BEFORE the second image's `src` `b.jpg`, while
the claimed grouped order would put `b.jpg` first: the Asset insertion
order is per-element, not globally grouped. -/
theorem c2_counterexample :
    (extractAssets joinId baseB domC2).1 =
      [("https://x.test/a.jpg", AssetType.image),
        ("https://x.test/b.jpg", AssetType.image)] ∧
    specExtractGrouped joinId baseB domC2 =
      [("https://x.test/b.jpg", AssetType.image),
        ("https://x.test/a.jpg", AssetType.image)] ∧
    (extractAssets joinId baseB domC2).1 ≠ specExtractGrouped joinId baseB domC2 :=
  ⟨by decide, by decide, by decide⟩

/-- C2, amended: on every HTML input and base URL on which no extraction
exception occurs, the recorded sequence is deterministic and follows the
per-element source order: for each `<img>` in document order its `src`,
then `data-src`, then its `srcset` candidates; after all `<img>` elements
the inline-style background-image URLs; then the `<source>` srcset first
tokens; then the `<a href>` PDF links. -/
theorem c2_amended_extraction_order :
    ∀ (join : String → String → String) (base : String) (dom : Dom),
      (extractAssets join base dom).2 = false →
      (extractAssets join base dom).1 = specExtractInterleaved join base dom := by
  intro join base dom h
  rw [extractAssets] at h ⊢
  rw [seqE_snd, seqE_snd, seqE_snd] at h
  obtain ⟨hA, hC⟩ : (imgsScan join base dom.imgs).2 = false ∧
      (sourcesScan join base dom.sources).2 = false := by simpa using h
  rw [seqE_fst_of_false _ _ hA, seqE_fst_of_false _ _ rfl,
    seqE_fst_of_false _ _ hC, imgsScan_of_false join base _ hA,
    sourcesScan_of_false join base _ hC, specExtractInterleaved]
  simp [List.append_assoc]

/-- C2, witness for the amended theorem at the two-image page. -/
theorem c2_amended_extraction_order_witness :
    (extractAssets joinId baseB domC2).1 = specExtractInterleaved joinId baseB domC2 :=
  c2_amended_extraction_order joinId baseB domC2 (by decide)

/-! ## C9: malformed fragment handling -/

/-- One run processes every page independently: the run's output splits
around any chosen page, whatever that page's outcome (helper). -/
theorem crawl_pending_urls_split (join : String → String → String)
    (pre post : List (String × Option Dom)) (pg : String × Option Dom) :
    crawl_pending_urls join (pre ++ pg :: post) =
      crawl_pending_urls join pre ++
        crawl_url join pg.1 pg.2 :: crawl_pending_urls join post := by
  induction pre with
  | nil => rfl
  | cons q rest ih =>
    rw [List.cons_append, crawl_pending_urls, ih, crawl_pending_urls, List.cons_append]

/-- C9, counterexample.  On the page
`<img srcset=", https://x.test/a.jpg 1x">` the empty first srcset
candidate raises `IndexError` inside `crawl_url`; the claim says only that
fragment is skipped and extraction continues (the page would complete with
the asset `https://x.test/a.jpg`), but the code aborts the whole page:
status `failed` and zero assets, the valid remaining fragment never
extracted. -/
theorem c9_counterexample :
    crawl_url joinId baseB (some domC9) = ⟨"failed", []⟩ ∧
    (extractAssets joinId baseB domC9).2 = true :=
  ⟨by decide, by decide⟩

/-- C9, amended: a malformed fragment (for example an empty or
whitespace-only srcset candidate) aborts extraction of the ENTIRE
enclosing page — the page is marked `failed` and only the assets already
committed before the exception remain — but it never aborts the enclosing
run: the run loop still processes every other page exactly as it would
alone. -/
theorem c9_amended_fragment_error_scope :
    ∀ (join : String → String → String) (base : String) (dom : Dom),
      (extractAssets join base dom).2 = true →
      (crawl_url join base (some dom)).urlStatus = "failed" ∧
      (crawl_url join base (some dom)).savedAssets = (extractAssets join base dom).1 ∧
      ∀ (pre post : List (String × Option Dom)),
        crawl_pending_urls join (pre ++ (base, some dom) :: post) =
          crawl_pending_urls join pre ++
            crawl_url join base (some dom) :: crawl_pending_urls join post := by
  intro join base dom h
  refine ⟨?_, ?_, fun pre post => crawl_pending_urls_split join pre post (base, some dom)⟩
  · simp [crawl_url, h]
  · simp [crawl_url, h]

/-- C9, witness for the amended theorem: the malformed page is failed with
no assets, and a run containing it still processes the following page. -/
theorem c9_amended_fragment_error_scope_witness :
    (crawl_url joinId baseB (some domC9)).urlStatus = "failed" ∧
    crawl_pending_urls joinId [(baseB, some domC9), (baseB, none)] =
      crawl_pending_urls joinId [] ++
        crawl_url joinId baseB (some domC9) :: crawl_pending_urls joinId [(baseB, none)] := by
  have h := c9_amended_fragment_error_scope joinId baseB domC9 (by decide)
  exact ⟨h.1, h.2.2 [] [(baseB, none)]⟩

/-! ## C4: renderer retry/timeout policy -/

/-- C4, counterexample.  With every attempt timing out, `fetch_dom` makes
its 3 attempts with page-load and script timeouts `[30, 30, 30]` — the
timeout budget is NOT `base × attempt` and not strictly increasing
(the claim would require 30, 60, 90). -/
theorem c4_counterexample :
    fetch_dom (fun _ => AttemptOutcome.timeout) =
      ⟨3, [1, 2], [30, 30, 30], [30, 30, 30], none⟩ ∧
    strictIncr (fetch_dom (fun _ => AttemptOutcome.timeout)).pageLoadTimeouts = false ∧
    strictIncr (fetch_dom (fun _ => AttemptOutcome.timeout)).scriptTimeouts = false :=
  ⟨by decide, by decide, by decide⟩

/-- C4, amended: for every URL whose attempts all fail, the renderer makes
exactly 3 attempts before failing permanently (returning `None`), with
CONSTANT page-load and script timeouts of 30 seconds on every attempt, and
an exponential backoff sleep of `2^attempt` seconds (1s then 2s, attempts
0-indexed) between consecutive attempts. -/
theorem c4_amended_render_retry_policy :
    ∀ outcome : Nat → AttemptOutcome,
      (∀ i, i < max_retries → (outcome i).isSuccess = false) →
      fetch_dom outcome = ⟨3, [1, 2], [30, 30, 30], [30, 30, 30], none⟩ := by
  intro o h
  have h0 := h 0 (by decide)
  have h1 := h 1 (by decide)
  have h2 := h 2 (by decide)
  cases e0 : o 0 <;> cases e1 : o 1 <;> cases e2 : o 2 <;>
    simp_all [fetch_dom, fetchGo, AttemptOutcome.isSuccess, max_retries,
      page_load_timeout, script_timeout]

/-- C4, witness for the amended theorem at the all-timeouts outcome. -/
theorem c4_amended_render_retry_policy_witness :
    fetch_dom (fun _ => AttemptOutcome.timeout) =
      ⟨3, [1, 2], [30, 30, 30], [30, 30, 30], none⟩ :=
  c4_amended_render_retry_policy (fun _ => AttemptOutcome.timeout)
    (fun _ _ => rfl)

/-! ## C8: which exceptions are retried during rendering -/

/-- Two attempt outcomes of the same handling class: equal, or both
failures (the source's three `except` arms behave identically). -/
def sameClass (a b : AttemptOutcome) : Prop :=
  a = b ∨ (a.isSuccess = false ∧ b.isSuccess = false)

/-- Helper: `fetchGo` cannot distinguish which kind of failure an attempt
produced. -/
theorem fetchGo_sameClass (o1 o2 : Nat → AttemptOutcome)
    (h : ∀ i, sameClass (o1 i) (o2 i)) :
    ∀ fuel attempt, fetchGo o1 fuel attempt = fetchGo o2 fuel attempt := by
  intro fuel
  induction fuel with
  | zero => intro _; rfl
  | succ n ih =>
    intro attempt
    rcases h attempt with heq | ⟨hf1, hf2⟩
    · cases e2 : o2 attempt <;>
        · have e1 := heq.trans e2
          simp [fetchGo, e1, e2, ih]
    · cases e1 : o1 attempt <;> cases e2 : o2 attempt <;>
        simp_all [fetchGo, AttemptOutcome.isSuccess, ih]

/-- C8, counterexample.  The claim says an exception that is neither a
timeout nor a transport failure surfaces immediately on the attempt where
it occurs, with no further attempts.  With a generic exception on attempt
0 and success on attempt 1, `fetch_dom` makes a SECOND attempt (after a
1-second backoff) and returns its HTML: the generic exception was retried
exactly like a timeout, and nothing surfaced to the caller. -/
theorem c8_counterexample :
    fetch_dom (fun i => if i = 0 then AttemptOutcome.otherErr else AttemptOutcome.success "x") =
      ⟨2, [1], [30, 30], [30, 30], some "x"⟩ := by
  decide

/-- C8, amended: `fetch_dom` handles ALL exception kinds raised during an
attempt — timeouts, WebDriver/transport errors, and any other exception —
identically: each is retried with `2^attempt` backoff until the final
attempt, after which `fetch_dom` returns `None`; no exception class
surfaces immediately.  Formally, the entire observable trace depends only
on which attempts succeed, never on the kind of failure. -/
theorem c8_amended_uniform_exception_handling :
    ∀ o1 o2 : Nat → AttemptOutcome,
      (∀ i, sameClass (o1 i) (o2 i)) → fetch_dom o1 = fetch_dom o2 := by
  intro o1 o2 h
  exact fetchGo_sameClass o1 o2 h max_retries 0

/-- C8, witness for the amended theorem: all-timeouts and
all-generic-exceptions runs are observationally identical. -/
theorem c8_amended_uniform_exception_handling_witness :
    fetch_dom (fun _ => AttemptOutcome.timeout) =
      fetch_dom (fun _ => AttemptOutcome.otherErr) :=
  c8_amended_uniform_exception_handling _ _ (fun _ => Or.inr ⟨rfl, rfl⟩)

/-! ## C1: asset status lifecycle of the OCR entry points -/

/-- C1, counterexample.  In `process_pdf`, when the cleanup delete raises
AFTER the `OCRResult` has been committed and the asset marked
`'processed'`, the exception handler flips the status to `'failed'`: an
`OCRResult` WAS persisted, yet the asset's final status is not
`'processed'` — refuting "status is 'processed' exactly when an OCRResult
was persisted". -/
theorem c1_counterexample :
    (process_pdf scC7).persisted = [⟨"text", 1⟩] ∧
    (process_pdf scC7).persisted ≠ [] ∧
    lastStatus (process_pdf scC7) = some "failed" :=
  ⟨rfl, by decide, rfl⟩

/-- C1, amended: both entry points write `'processing'` first and never
write `'pending'`, and every call ends in `'processed'` or `'failed'`.
For `process_image` the final status is `'processed'` exactly when an
`OCRResult` was persisted; for `process_pdf` it is `'processed'` exactly
when an `OCRResult` was persisted AND the cleanup deletes succeeded — a
cleanup failure after persistence leaves the asset `'failed'`. -/
theorem c1_amended_status_lifecycle :
    ∀ (si : ImageScenario) (sp : PdfScenario),
      ((process_image si).statusHistory.head? = some "processing" ∧
        "pending" ∉ (process_image si).statusHistory ∧
        (lastStatus (process_image si) = some "processed" ↔
          (process_image si).persisted ≠ []) ∧
        (lastStatus (process_image si) = some "processed" ∨
          lastStatus (process_image si) = some "failed")) ∧
      ((process_pdf sp).statusHistory.head? = some "processing" ∧
        "pending" ∉ (process_pdf sp).statusHistory ∧
        (lastStatus (process_pdf sp) = some "processed" ↔
          ((process_pdf sp).persisted ≠ [] ∧ sp.cleanup = .ok ())) ∧
        (lastStatus (process_pdf sp) = some "processed" ∨
          lastStatus (process_pdf sp) = some "failed")) := by
  intro si sp
  constructor
  · obtain ⟨dl, vi⟩ := si
    rcases dl with e | ⟨code, content⟩
    · simp [process_image, process_image_try, lastStatus, lastWritten]
    · by_cases hc : code = 200
      · subst hc
        rcases vi with e | resp
        · simp [process_image, process_image_try, lastStatus, lastWritten]
        · by_cases he : resp.errorMessage = ""
          · simp [process_image, process_image_try, lastStatus, lastWritten, he]
          · simp [process_image, process_image_try, lastStatus, lastWritten, he]
      · simp [process_image, process_image_try, lastStatus, lastWritten, hc]
  · obtain ⟨dl, up, op, outs, cl⟩ := sp
    rcases dl with e | ⟨code, content⟩
    · simp [process_pdf, process_pdf_try, lastStatus, lastWritten]
    · by_cases hc : code = 200
      · subst hc
        rcases up with e | ⟨⟩
        · simp [process_pdf, process_pdf_try, lastStatus, lastWritten]
        · rcases op with e | ⟨⟩
          · simp [process_pdf, process_pdf_try, lastStatus, lastWritten]
          · rcases outs with e | blobs
            · simp [process_pdf, process_pdf_try, lastStatus, lastWritten]
            · rcases cl with e | ⟨⟩
              · simp [process_pdf, process_pdf_try, lastStatus, lastWritten]
              · simp [process_pdf, process_pdf_try, lastStatus, lastWritten]
      · simp [process_pdf, process_pdf_try, lastStatus, lastWritten, hc]

/-! ## C3: OCR retry policy -/

/-- C3, counterexample.  With the download succeeding and
`document_text_detection` raising `GoogleAPIError` — precisely the
transient service-side class the decorator's predicate selects — the
decorated call makes exactly ONE attempt and fails permanently (status
`'failed'`, `None` returned): no retry, no backoff, no 5-attempt/300s
boundary, because the function's own `except Exception` swallows the
exception before the decorator can see it. -/
theorem c3_counterexample :
    retryPredicate .googleAPIError = true ∧
    process_image_decorated scC3 =
      (1, .ok ⟨["processing", "failed"], [], true, none⟩) :=
  ⟨rfl, rfl⟩

/-- C3, amended: the decorator is configured to retry `GoogleAPIError`
with 1s initial backoff doubling to a 60s cap under a 300s deadline (and
no 5-attempt cap), but it never fires: both entry points catch every
exception internally and return `None`, so every invocation — whatever
the download, service, or store does — performs exactly one attempt and
returns the undecorated result. -/
theorem c3_amended_no_retry :
    ∀ (si : ImageScenario) (sp : PdfScenario),
      process_image_decorated si = (1, .ok (process_image si)) ∧
      process_pdf_decorated sp = (1, .ok (process_pdf sp)) :=
  fun _ _ => ⟨rfl, rfl⟩

/-! ## C5: download failure short-circuit -/

/-- C5: for every asset whose byte download returns a non-2xx HTTP status
(the code tests `!= 200`, which every non-2xx status satisfies), both
entry points set the asset `'failed'`, persist zero `OCRResult` rows,
never invoke the recognition service, and return `None`. -/
theorem c5_download_failure_short_circuits :
    ∀ (si : ImageScenario) (sp : PdfScenario) (code codep : Nat)
      (body bodyp : String),
      si.download = .ok (code, body) → code < 200 ∨ 300 ≤ code →
      sp.download = .ok (codep, bodyp) → codep < 200 ∨ 300 ≤ codep →
      (lastStatus (process_image si) = some "failed" ∧
        (process_image si).persisted = [] ∧
        (process_image si).visionCalled = false ∧
        (process_image si).result = none) ∧
      (lastStatus (process_pdf sp) = some "failed" ∧
        (process_pdf sp).persisted = [] ∧
        (process_pdf sp).visionCalled = false ∧
        (process_pdf sp).result = none) := by
  intro si sp code codep body bodyp hdi hci hdp hcp
  have hne : code ≠ 200 := by omega
  have hnep : codep ≠ 200 := by omega
  constructor
  · simp [process_image, process_image_try, hdi, hne, lastStatus, lastWritten]
  · simp [process_pdf, process_pdf_try, hdp, hnep, lastStatus, lastWritten]

/-- C5, witness at HTTP 404 for both entry points. -/
theorem c5_download_failure_short_circuits_witness :
    (lastStatus (process_image scC5i) = some "failed" ∧
      (process_image scC5i).persisted = [] ∧
      (process_image scC5i).visionCalled = false ∧
      (process_image scC5i).result = none) ∧
    (lastStatus (process_pdf scC5p) = some "failed" ∧
      (process_pdf scC5p).persisted = [] ∧
      (process_pdf scC5p).visionCalled = false ∧
      (process_pdf scC5p).result = none) :=
  c5_download_failure_short_circuits scC5i scC5p 404 404 "not found" "not found"
    rfl (by decide) rfl (by decide)

/-! ## C7: cleanup failure handling in `process_pdf` -/

/-- C7, counterexample.  In the run where everything succeeds until the
cleanup delete raises, the claim says the failure is logged only, the
status stays `'processed'` and the return value stays non-`None`; the code
instead ends with status `'failed'` and returns `None` (the committed
`OCRResult` row survives). -/
theorem c7_counterexample :
    process_pdf scC7 =
      ⟨["processing", "processed", "failed"], [⟨"text", 1⟩], true, none⟩ ∧
    lastStatus (process_pdf scC7) ≠ some "processed" ∧
    (process_pdf scC7).result = none :=
  ⟨rfl, by decide, rfl⟩

/-- C7, amended: after the concatenated `OCRResult` is persisted and the
asset marked `'processed'`, a failure during the cleanup deletes is caught
by the function's general handler, which overwrites the status with
`'failed'` and returns `None`: cleanup failure IS propagated into the
pipeline outcome, although the persisted `OCRResult` row remains. -/
theorem c7_amended_cleanup_failure_propagates :
    ∀ (sp : PdfScenario) (body : String) (blobs : List OutBlob) (e : PyErr),
      sp.download = .ok (200, body) → sp.upload = .ok () →
      sp.operation = .ok () → sp.outputs = .ok blobs →
      sp.cleanup = .error e →
      (process_pdf sp).persisted =
        [⟨String.intercalate "\n" (blobs.map blobText), 1⟩] ∧
      lastStatus (process_pdf sp) = some "failed" ∧
      (process_pdf sp).result = none := by
  intro sp body blobs e hd hu ho hout hcl
  simp [process_pdf, process_pdf_try, hd, hu, ho, hout, hcl, lastStatus,
    lastWritten]

/-- C7, witness for the amended theorem at the concrete failing-cleanup
run. -/
theorem c7_amended_cleanup_failure_propagates_witness :
    (process_pdf scC7).persisted = [⟨"text", 1⟩] ∧
    lastStatus (process_pdf scC7) = some "failed" ∧
    (process_pdf scC7).result = none :=
  c7_amended_cleanup_failure_propagates scC7 "pdfbytes"
    [⟨"text", .okText "text"⟩] .storageError rfl rfl rfl rfl rfl

/-! ## C10: no exception ever propagates from the entry points -/

/-- C10: both entry points are total on every scenario — any exception in
the body is caught by the handler, which sets the asset `'failed'` and
returns `None`; on success the newly created `OCRResult` (the single row
committed) is returned with the asset `'processed'`.  No third outcome
exists, so no exception reaches the caller. -/
theorem c10_total_no_exception_propagation :
    ∀ (si : ImageScenario) (sp : PdfScenario),
      ((∃ r, (process_image si).result = some r ∧
          (process_image si).persisted = [r] ∧
          lastStatus (process_image si) = some "processed") ∨
        ((process_image si).result = none ∧
          lastStatus (process_image si) = some "failed")) ∧
      ((∃ r, (process_pdf sp).result = some r ∧
          (process_pdf sp).persisted = [r] ∧
          lastStatus (process_pdf sp) = some "processed") ∨
        ((process_pdf sp).result = none ∧
          lastStatus (process_pdf sp) = some "failed")) := by
  intro si sp
  constructor
  · obtain ⟨dl, vi⟩ := si
    rcases dl with e | ⟨code, content⟩
    · right
      simp [process_image, process_image_try, lastStatus, lastWritten]
    · by_cases hc : code = 200
      · subst hc
        rcases vi with e | resp
        · right
          simp [process_image, process_image_try, lastStatus, lastWritten]
        · by_cases he : resp.errorMessage = ""
          · left
            refine ⟨⟨resp.text, resp.pages.headD 0⟩, ?_⟩
            simp [process_image, process_image_try, lastStatus, lastWritten, he]
          · right
            simp [process_image, process_image_try, lastStatus, lastWritten, he]
      · right
        simp [process_image, process_image_try, lastStatus, lastWritten, hc]
  · obtain ⟨dl, up, op, outs, cl⟩ := sp
    rcases dl with e | ⟨code, content⟩
    · right
      simp [process_pdf, process_pdf_try, lastStatus, lastWritten]
    · by_cases hc : code = 200
      · subst hc
        rcases up with e | ⟨⟩
        · right
          simp [process_pdf, process_pdf_try, lastStatus, lastWritten]
        · rcases op with e | ⟨⟩
          · right
            simp [process_pdf, process_pdf_try, lastStatus, lastWritten]
          · rcases outs with e | blobs
            · right
              simp [process_pdf, process_pdf_try, lastStatus, lastWritten]
            · rcases cl with e | ⟨⟩
              · right
                simp [process_pdf, process_pdf_try, lastStatus, lastWritten]
              · left
                refine ⟨⟨String.intercalate "\n" (blobs.map blobText), 1⟩, ?_⟩
                simp [process_pdf, process_pdf_try, lastStatus, lastWritten]
      · right
        simp [process_pdf, process_pdf_try, lastStatus, lastWritten, hc]

/-! ## C6: run overlap and page claiming -/

/-- Helper: a run crawls exactly its selected worklist, in order. -/
theorem runAll_log (outcome : Nat → Bool) :
    ∀ (ids : List Nat) (db : List PageRec), (runAll outcome db ids).2 = ids := by
  intro ids
  induction ids with
  | nil => intro db; rfl
  | cons i rest ih => intro db; simp [runAll, ih]

/-- Helper: marking a page done keeps its id. -/
theorem doneStatus_id (outcome : Nat → Bool) (p : PageRec) :
    (doneStatus outcome p).id = p.id := rfl

/-- Helper: marking a page done twice is the same as once. -/
theorem doneStatus_idem (outcome : Nat → Bool) (p : PageRec) :
    doneStatus outcome (doneStatus outcome p) = doneStatus outcome p := rfl

/-- Helper: after a run drains its worklist, exactly the pages whose id was
on the worklist carry their terminal status; all others are untouched. -/
theorem runAll_db (outcome : Nat → Bool) :
    ∀ (ids : List Nat) (db : List PageRec),
      (runAll outcome db ids).1 =
        db.map fun p => if p.id ∈ ids then doneStatus outcome p else p := by
  intro ids
  induction ids with
  | nil => intro db; simp [runAll]
  | cons i rest ih =>
    intro db
    rw [runAll]
    dsimp only
    rw [ih (crawlMark outcome db i), crawlMark, List.map_map]
    apply List.map_congr_left
    intro p _
    by_cases hpi : p.id = i
    · simp [Function.comp, hpi, doneStatus_id, doneStatus_idem]
    · simp [Function.comp, hpi, List.mem_cons]

/-- Helper: after one run drains the pending worklist it selected, no page
is pending any more, so a second (serialized) selection is empty. -/
theorem selectPending_runAll (outcome : Nat → Bool) (db : List PageRec) :
    selectPending (runAll outcome db (selectPending db)).1 = [] := by
  rw [runAll_db]
  have hfil : ((db.map fun p =>
      if p.id ∈ selectPending db then doneStatus outcome p else p).filter
        fun p => p.status == "pending") = [] := by
    rw [List.filter_eq_nil_iff]
    intro q hq
    obtain ⟨p, hp, rfl⟩ := List.mem_map.1 hq
    by_cases hmem : p.id ∈ selectPending db
    · simp only [hmem, if_true, doneStatus]
      cases houtcome : outcome p.id <;> simp [houtcome]
    · simp only [hmem, if_false]
      simp only [beq_iff_eq]
      intro hstat
      exact hmem (List.mem_map.2 ⟨p,
        List.mem_filter.2 ⟨hp, by simp [hstat]⟩, rfl⟩)
  rw [selectPending, hfil]
  rfl

/-- C6, counterexample.  One pending page, a scheduled run and the manual
endpoint's thread overlapped so that both execute
`filter_by(status='pending')` before either crawls (the code flips a
page's status only at the END of `crawl_url` and `max_instances=1` does
not gate the manual thread): both runs select page 1 and both crawl it —
the page is processed twice, refuting "claimed and processed by exactly
one in-flight run". -/
theorem c6_counterexample :
    overlappedRuns (fun _ => true) dbOnePending =
      ([⟨1, "completed"⟩], [1], [1]) ∧
    ((overlappedRuns (fun _ => true) dbOnePending).2.1 ++
      (overlappedRuns (fun _ => true) dbOnePending).2.2).count 1 = 2 :=
  ⟨rfl, rfl⟩

/-- C6, amended: there is no claim step, so a page CAN be crawled by two
overlapping runs; only when the runs are serialized (the second selects
after the first finished, as `max_instances=1` guarantees for the
scheduled job against itself) does each pending page get processed exactly
once: the first run crawls exactly the pending pages, the second selects
nothing, and each pending page id appears exactly once in the combined
crawl log. -/
theorem c6_amended_serialized_single_processing :
    ∀ (outcome : Nat → Bool) (db : List PageRec),
      (db.map PageRec.id).Nodup →
      (sequentialRuns outcome db).2.1 = selectPending db ∧
      (sequentialRuns outcome db).2.2 = [] ∧
      ∀ p ∈ db, p.status = "pending" →
        ((sequentialRuns outcome db).2.1 ++
          (sequentialRuns outcome db).2.2).count p.id = 1 := by
  intro outcome db hnd
  have h21 : (sequentialRuns outcome db).2.1 = selectPending db := by
    rw [sequentialRuns]
    dsimp only
    exact runAll_log outcome _ db
  have h22 : (sequentialRuns outcome db).2.2 = [] := by
    rw [sequentialRuns]
    dsimp only
    rw [selectPending_runAll]
    rfl
  refine ⟨h21, h22, ?_⟩
  intro p hp hpend
  rw [h21, h22, List.append_nil]
  have hmem : p.id ∈ selectPending db :=
    List.mem_map.2 ⟨p, List.mem_filter.2 ⟨hp, by simp [hpend]⟩, rfl⟩
  have hnodup : (selectPending db).Nodup := by
    have hsub : List.Sublist
        ((db.filter fun q => q.status == "pending").map PageRec.id)
        (db.map PageRec.id) :=
      List.Sublist.map PageRec.id (List.filter_sublist db)
    exact List.Nodup.sublist hsub hnd
  exact List.count_eq_one_of_mem hnodup hmem

/-- C6, witness for the amended theorem on the one-pending-page table. -/
theorem c6_amended_serialized_single_processing_witness :
    (sequentialRuns (fun _ => true) dbOnePending).2.1 = selectPending dbOnePending ∧
    (sequentialRuns (fun _ => true) dbOnePending).2.2 = [] ∧
    ((sequentialRuns (fun _ => true) dbOnePending).2.1 ++
      (sequentialRuns (fun _ => true) dbOnePending).2.2).count 1 = 1 := by
  have h := c6_amended_serialized_single_processing (fun _ => true) dbOnePending
    (by decide)
  exact ⟨h.1, h.2.1, h.2.2 ⟨1, "pending"⟩ (by decide) rfl⟩

end CrawlerModel
